import Mathlib

/-!
Verification of the flexlimit rate-limiting decision engine contracts.

The Go sources embedded here are the `flexlimit` package (types.go,
errors.go), the `algorithm` package (algorithm.go) and the `clock`
package. Machine integers (int, int64, time.Duration in nanoseconds)
are modelled as ℤ; Go float64 and time instants used by the (spec-only)
algorithm engines are modelled as ℚ; Go `error` values relevant to the
claims are modelled by the closed inductive universe `GoErr` together
with an executable model `errorsIs` of the standard library's
`errors.Is` chain walk (equality, then the type's `Is` method, then
`Unwrap`).
-/

/-- Models Go `interface{}` values stored in config-error records:
the code only ever stores integers (int64 / time.Duration) or strings. -/
inductive GoValue where
  | int (i : ℤ)
  | str (s : String)
deriving DecidableEq, Repr

/-- Closed universe of the Go `error` values reachable in the embedded
code: the `context` package sentinels, the `flexlimit` package sentinels
(errors.go lines 11-48), the structured error records of errors.go, a
`fmt.Errorf`-style wrapper, and opaque `errors.New`-style errors.
A `StorageError` whose underlying `Err` field is nil is represented by
the separate constructor `storageErrorNil`. -/
inductive GoErr where
  | contextCanceled
  | contextDeadlineExceeded
  | errRateLimitExceeded
  | errInvalidConfig
  | errStorageUnavailable
  | errKeyNotFound
  | errContextCanceled
  | errContextDeadlineExceeded
  | limitExceededError (key : String) (limit used : ℤ)
  | invalidConfigError (field : String) (value : GoValue) (reason : String)
  | storageError (backend operation key : String) (cause : GoErr)
  | storageErrorNil (backend operation key : String)
  | configError (field : String) (value : GoValue) (reason : String)
  | wrapped (msg : String) (inner : GoErr)
  | plain (msg : String)
deriving DecidableEq, Repr

/-- Models Go `errors.Is(e, target)`: at each chain element, test
identity, then the element's own `Is` method, then follow `Unwrap`.
The `Is`/`Unwrap` methods are those defined in errors.go:
`LimitExceededError.Is` matches `ErrRateLimitExceeded` (line 91) and
unwraps to it (line 96); `InvalidConfigError.Is` matches
`ErrInvalidConfig` (line 129) and unwraps to it (line 134);
`StorageError.Is` matches `ErrStorageUnavailable` regardless of the
record's fields (line 178) and unwraps to its cause (line 183); the
sentinels and `plain` errors have no methods. The unwrap step for
`limitExceededError` / `invalidConfigError` reaches a bare sentinel,
whose own chain walk is plain equality, inlined here. -/
def errorsIs : GoErr → GoErr → Bool
  | e@(.storageError _ _ _ c), t =>
      e == t || t == .errStorageUnavailable || errorsIs c t
  | e@(.storageErrorNil _ _ _), t =>
      e == t || t == .errStorageUnavailable
  | e@(.limitExceededError _ _ _), t =>
      e == t || t == .errRateLimitExceeded || .errRateLimitExceeded == t
  | e@(.invalidConfigError _ _ _), t =>
      e == t || t == .errInvalidConfig || .errInvalidConfig == t
  | e@(.wrapped _ c), t => e == t || errorsIs c t
  | e, t => e == t

namespace flexlimit

/-- errors.go lines 187-202: wrapContextError wraps context errors to the
package's custom error types; nil stays nil, `context.Canceled` matches
become `ErrContextCanceled`, `context.DeadlineExceeded` matches become
`ErrContextDeadlineExceeded`, every other error is returned unchanged. -/
def wrapContextError : Option GoErr → Option GoErr
  | none => none
  | some e =>
      if errorsIs e .contextCanceled then some .errContextCanceled
      else if errorsIs e .contextDeadlineExceeded then some .errContextDeadlineExceeded
      else some e

/-- types.go lines 116-140: RequestContext bundles the identifiers used
for composite rate limiting. `Custom` models the Go `map[string]string`
(a nil map and an empty map behave identically under lookup). -/
structure RequestContext where
  IP : String
  UserID : String
  Endpoint : String
  SessionID : String
  Custom : List (String × String)
deriving DecidableEq, Repr

/-- types.go lines 152-181: derive a rate limiting key from the context
for a named strategy; every fall-through path returns "". -/
def RequestContext.Key (rc : RequestContext) (strategy : String) : String :=
  if strategy = "ip" then
    (if rc.IP ≠ "" then "ip:" ++ rc.IP else "")
  else if strategy = "user" then
    (if rc.UserID ≠ "" then "user:" ++ rc.UserID else "")
  else if strategy = "endpoint" then
    (if rc.Endpoint ≠ "" then "endpoint:" ++ rc.Endpoint else "")
  else if strategy = "session" then
    (if rc.SessionID ≠ "" then "session:" ++ rc.SessionID else "")
  else if strategy = "global" then "global"
  else
    match rc.Custom.lookup strategy with
    | some val => strategy ++ ":" ++ val
    | none => ""

/-- types.go line 253: AlgorithmType is a named string type. -/
abbrev AlgorithmType := String

/-- types.go line 274: FallbackStrategy is a named string type. -/
abbrev FallbackStrategy := String

/-- types.go line 258. -/
def TokenBucket : AlgorithmType := "token_bucket"

/-- types.go line 262. -/
def SlidingWindow : AlgorithmType := "sliding_window"

/-- types.go line 266. -/
def FixedWindow : AlgorithmType := "fixed_window"

/-- types.go line 270. -/
def LeakyBucket : AlgorithmType := "leaky_bucket"

/-- types.go line 279. -/
def AllowAll : FallbackStrategy := "allow_all"

/-- types.go line 283. -/
def DenyAll : FallbackStrategy := "deny_all"

/-- types.go line 287. -/
def LocalMemory : FallbackStrategy := "local_memory"

/-- types.go lines 300-312: AlgorithmType.Validate returns nil on the
four known algorithm names and an InvalidConfigError otherwise. -/
def AlgorithmType.Validate (a : AlgorithmType) : Option GoErr :=
  if a = TokenBucket ∨ a = SlidingWindow ∨ a = FixedWindow ∨ a = LeakyBucket then
    none
  else
    some (.invalidConfigError "algorithm" (.str a)
      "must be one of: token_bucket, sliding_window, fixed_window, leaky_bucket")

/-- types.go lines 314-326: FallbackStrategy.Validate returns nil on the
three known strategies and an InvalidConfigError otherwise. -/
def FallbackStrategy.Validate (f : FallbackStrategy) : Option GoErr :=
  if f = AllowAll ∨ f = DenyAll ∨ f = LocalMemory then
    none
  else
    some (.invalidConfigError "fallback_strategy" (.str f)
      "must be one of: allow_all, deny_all, local_memory")

/-- Go `time.Duration` values are int64 nanosecond counts; time.Minute. -/
def timeMinute : ℤ := 60 * 1000000000

/-- types.go lines 198-235: the Options struct collected by the
functional-options pattern. The interface-typed fields (storage, clock,
metrics) and the callback fields (onLimit, onAllow, onFallback) are
modelled only by their set/unset status (`Option Unit`), mirroring the
Go nil-interface / nil-func zero values; durations are ℤ nanoseconds. -/
structure Options where
  algorithm : String
  storage : Option Unit
  clock : Option Unit
  metrics : Option Unit
  onLimit : Option Unit
  onAllow : Option Unit
  fallbackStrategy : String
  onFallback : Option Unit
  maxKeys : ℤ
  cleanupInterval : ℤ
  burstSize : ℤ
deriving DecidableEq, Repr

/-- types.go lines 240-248: defaultOptions returns the default
configuration; fields absent from the Go struct literal take their Go
zero values (nil interfaces and funcs, i.e. `none`). -/
def defaultOptions : Options :=
  ⟨"token_bucket", none, none, none, none, none, "allow_all", none,
    10000, 5 * timeMinute, 0⟩

end flexlimit

namespace algorithm

/-- algorithm.go lines 187-200: Config for algorithm initialization.
Rate and BurstSize are int64; Window is a time.Duration (ℤ ns). -/
structure Config where
  Rate : ℤ
  Window : ℤ
  BurstSize : ℤ
  Algorithm : String
deriving DecidableEq, Repr

/-- algorithm.go lines 202-229: Config.Validate checks Rate, Window and
BurstSize in that order and returns the first violation as a
ConfigError; it performs no check of the Algorithm field. -/
def Config.Validate (c : Config) : Option GoErr :=
  if c.Rate ≤ 0 then
    some (.configError "rate" (.int c.Rate) "must be positive")
  else if c.Window ≤ 0 then
    some (.configError "window" (.int c.Window) "must be positive")
  else if c.BurstSize < 0 then
    some (.configError "burst_size" (.int c.BurstSize) "cannot be negative")
  else none

/-- algorithm.go line 245: the algorithm package's own AlgorithmType. -/
abbrev AlgorithmType := String

/-- algorithm.go lines 247-263: the four algorithm name constants. -/
def TokenBucket : AlgorithmType := "token_bucket"

/-- algorithm.go line 254. -/
def FixedWindow : AlgorithmType := "fixed_window"

/-- algorithm.go line 258. -/
def SlidingWindow : AlgorithmType := "sliding_window"

/-- algorithm.go line 262. -/
def LeakyBucket : AlgorithmType := "leaky_bucket"

/-- algorithm.go lines 270-282: the algorithm package's
AlgorithmType.Validate, returning a ConfigError on unknown names. -/
def AlgorithmType.Validate (a : AlgorithmType) : Option GoErr :=
  if a = TokenBucket ∨ a = FixedWindow ∨ a = SlidingWindow ∨ a = LeakyBucket then
    none
  else
    some (.configError "algorithm" (.str a)
      "must be one of: token_bucket, fixed_window, sliding_window, leaky_bucket")

/-- Modelled from the spec: persisted Token Bucket state (`tokens`,
`lastRefill`) — the engine bodies behind the `Algorithm` interface
(algorithm.go lines 8-31) are not part of the repository sources, only
their contract is; state and behavior follow spec sections 3 and 4.1.
Times and token counts are ℚ. -/
structure TBState where
  tokens : ℚ
  lastRefill : ℚ
deriving DecidableEq, Repr

/-- Modelled from the spec: Token Bucket burst capacity, section 4.1 —
"burstSize (bucket capacity; defaults to rate if zero)". -/
def tbBurst (rate burstSize : ℚ) : ℚ :=
  if burstSize = 0 then rate else burstSize

/-- Modelled from the spec: the lazily refilled token count, section 4.1
— elapsed = now − lastRefill; refill = elapsed × (rate/window);
tokens = min(burstSize, tokens + refill). -/
def tbRefilled (rate window burstSize : ℚ) (st : TBState) (now : ℚ) : ℚ :=
  min (tbBurst rate burstSize) (st.tokens + (now - st.lastRefill) * (rate / window))

/-- Modelled from the spec: the Token Bucket engine's Allow, section 4.1
— after the lazy refill and `lastRefill = now`, if tokens ≥ cost then
subtract cost, persist and admit with retryAfter 0; else reject with
retryAfter = (cost − tokens) × window/rate, leaving persisted state at
the refilled (not decremented) value, lazy refill committing even on
rejection. Result is (admitted, persisted state, retryAfter). -/
def tokenBucketAllow (rate window burstSize : ℚ) (st : TBState) (now cost : ℚ) :
    Bool × TBState × ℚ :=
  let refilled := tbRefilled rate window burstSize st now
  if cost ≤ refilled then
    (true, ⟨refilled - cost, now⟩, 0)
  else
    (false, ⟨refilled, now⟩, (cost - refilled) * (window / rate))

/-- Modelled from the spec: persisted Fixed Window state (`count`,
`windowStart`), spec sections 3 and 4.2. -/
structure FWState where
  count : ℤ
  windowStart : ℚ
deriving DecidableEq, Repr

/-- Modelled from the spec: the Fixed Window engine's Allow, section 4.2
— if now ≥ windowStart + window, reset count = 0 and windowStart = now;
if count + cost ≤ rate, increment by cost and admit; else reject with
retryAfter = windowStart + window − now. Per the section 3 invariant a
denial does not mutate persisted state. -/
def fixedWindowAllow (rate : ℤ) (window : ℚ) (st : FWState) (now : ℚ) (cost : ℤ) :
    Bool × FWState × ℚ :=
  let cur := if st.windowStart + window ≤ now then FWState.mk 0 now else st
  if cur.count + cost ≤ rate then
    (true, ⟨cur.count + cost, cur.windowStart⟩, 0)
  else
    (false, st, cur.windowStart + window - now)

/-- Modelled from the spec: the Sliding Window engine's Allow, section
4.3 — prune all stored timestamps older than now − window (on every
read, admitted or not); if remaining-after-prune count + cost ≤ rate,
append cost copies of the current timestamp and admit; else reject with
retryAfter = time until the oldest timestamp exits the window.
Timestamps are kept in append (chronological) order, so the oldest is
the head. Persisted state is the returned timestamp list. -/
def slidingWindowAllow (rate : ℤ) (window : ℚ) (ts : List ℚ) (now : ℚ) (cost : ℕ) :
    Bool × List ℚ × ℚ :=
  let pruned := ts.filter (fun t => now - window ≤ t)
  if (pruned.length : ℤ) + (cost : ℤ) ≤ rate then
    (true, pruned ++ List.replicate cost now, 0)
  else
    (false, pruned,
      match pruned.head? with
      | some oldest => oldest + window - now
      | none => 0)

/-- Modelled from the spec: persisted Leaky Bucket state (`level`,
`lastLeak`), spec section 4.4. -/
structure LBState where
  level : ℚ
  lastLeak : ℚ
deriving DecidableEq, Repr

/-- Modelled from the spec: the Leaky Bucket engine's Allow, section 4.4
— decrement level by elapsed × rate, floored at 0, before evaluating;
if level + cost ≤ capacity, add cost and admit; else reject with
retryAfter computed from excess/rate. Per the section 3 invariant a
denial does not mutate persisted state. -/
def leakyBucketAllow (rate capacity : ℚ) (st : LBState) (now cost : ℚ) :
    Bool × LBState × ℚ :=
  let leaked := max 0 (st.level - (now - st.lastLeak) * rate)
  if leaked + cost ≤ capacity then
    (true, ⟨leaked + cost, now⟩, 0)
  else
    (false, st, (leaked + cost - capacity) / rate)

end algorithm

namespace clock

/-- clock package: the mock clock's fields (part_000 lines 68-73), with
instants and durations as ℤ nanoseconds. The mutex is a concurrency
artifact with no sequential behavior and is not modelled; `auto` and
`step` drive the auto-advance feature. -/
structure Mock where
  now : ℤ
  auto : Bool
  step : ℤ
deriving DecidableEq, Repr

/-- part_000 lines 95-111: Now returns the current mock time; when
auto-advance is on the clock is moved forward by `step` after the
return value is read, so the pre-advance time is returned. Sequential
state passing replaces the in-place mutation. -/
def Mock.Now (m : Mock) : ℤ × Mock :=
  (m.now, if m.auto then { m with now := m.now + m.step } else m)

/-- part_000 lines 120-124: Set pins the mock time. -/
def Mock.Set (m : Mock) (t : ℤ) : Mock :=
  { m with now := t }

/-- part_000 lines 134-138: Advance moves the mock time forward by d. -/
def Mock.Advance (m : Mock) (d : ℤ) : Mock :=
  { m with now := m.now + d }

/-- part_000 lines 152-157: SetAutoAdvance turns on auto-advance with
the given step. -/
def Mock.SetAutoAdvance (m : Mock) (s : ℤ) : Mock :=
  { m with auto := true, step := s }

/-- part_000 lines 160-164: DisableAutoAdvance turns auto-advance off. -/
def Mock.DisableAutoAdvance (m : Mock) : Mock :=
  { m with auto := false }

/-- part_000 lines 171-173: Since returns Now().Sub(t); it goes through
Now, so it inherits Now's auto-advance side effect. -/
def Mock.Since (m : Mock) (t : ℤ) : ℤ × Mock :=
  let r := m.Now
  (r.1 - t, r.2)

/-- The trace of k consecutive Now() calls under sequential use. -/
def Mock.nowTrace : Mock → ℕ → List ℤ
  | _, 0 => []
  | m, k + 1 =>
      let r := m.Now
      r.1 :: Mock.nowTrace r.2 k

end clock

/-- C8: every StorageError value, whatever its Backend, Operation, Key
or underlying cause (a key-not-found cause included, and a nil cause
included), matches ErrStorageUnavailable under errors.Is, because
StorageError.Is compares only the target against that sentinel; so a
caller cannot distinguish storage-error kinds via errors.Is on this
sentinel. -/
theorem c8_storage_error_matches_unavailable :
    (∀ b o k c, errorsIs (.storageError b o k c) .errStorageUnavailable = true) ∧
    (∀ b o k, errorsIs (.storageError b o k .errKeyNotFound) .errStorageUnavailable = true) ∧
    (∀ b o k, errorsIs (.storageErrorNil b o k) .errStorageUnavailable = true) := by
  refine ⟨fun b o k c => ?_, fun b o k => ?_, fun b o k => ?_⟩ <;>
    simp [errorsIs]

/-- C9: defaultOptions fails open — fallbackStrategy "allow_all" — and
sets algorithm "token_bucket", maxKeys 10000, cleanupInterval 5
minutes, burstSize 0, leaving storage, clock, metrics and all callbacks
unset. -/
theorem c9_default_options :
    flexlimit.defaultOptions.fallbackStrategy = flexlimit.AllowAll ∧
    flexlimit.defaultOptions.algorithm = flexlimit.TokenBucket ∧
    flexlimit.defaultOptions.maxKeys = 10000 ∧
    flexlimit.defaultOptions.cleanupInterval = 5 * flexlimit.timeMinute ∧
    flexlimit.defaultOptions.burstSize = 0 ∧
    flexlimit.defaultOptions.storage = none ∧
    flexlimit.defaultOptions.clock = none ∧
    flexlimit.defaultOptions.metrics = none ∧
    flexlimit.defaultOptions.onLimit = none ∧
    flexlimit.defaultOptions.onAllow = none ∧
    flexlimit.defaultOptions.onFallback = none :=
  ⟨rfl, rfl, rfl, rfl, rfl, rfl, rfl, rfl, rfl, rfl, rfl⟩

/-- C4 counterexample: wrapContextError does not return the caller's
cancellation error verbatim — it converts context.Canceled into the
distinct package sentinel ErrContextCanceled, a different error value
which does not even match context.Canceled under errors.Is. -/
theorem c4_counterexample :
    flexlimit.wrapContextError (some .contextCanceled) = some .errContextCanceled ∧
    GoErr.errContextCanceled ≠ GoErr.contextCanceled ∧
    errorsIs .errContextCanceled .contextCanceled = false := by
  refine ⟨?_, by decide, by decide⟩
  rfl

/-- C4 (amended): wrapContextError maps nil to nil; an error matching
context.Canceled to the package sentinel ErrContextCanceled; an error
matching context.DeadlineExceeded (and not Canceled) to
ErrContextDeadlineExceeded; and every other error verbatim — so
cancellation is surfaced as a distinct error value, never as nil (an
admission-shaped outcome) and never as a denial. -/
theorem c4_wrap_context_error (e : GoErr) :
    flexlimit.wrapContextError none = none ∧
    (errorsIs e .contextCanceled = true →
      flexlimit.wrapContextError (some e) = some .errContextCanceled) ∧
    (errorsIs e .contextCanceled = false →
      errorsIs e .contextDeadlineExceeded = true →
      flexlimit.wrapContextError (some e) = some .errContextDeadlineExceeded) ∧
    (errorsIs e .contextCanceled = false →
      errorsIs e .contextDeadlineExceeded = false →
      flexlimit.wrapContextError (some e) = some e) := by
  refine ⟨rfl, fun h1 => ?_, fun h1 h2 => ?_, fun h1 h2 => ?_⟩ <;>
    simp [flexlimit.wrapContextError, h1]
  · simp [h2]
  · simp [h2]

/-- C4 witness: the amended mapping evaluated at context.Canceled,
context.DeadlineExceeded and an ordinary error. -/
theorem c4_witness :
    flexlimit.wrapContextError (some .contextDeadlineExceeded) =
      some .errContextDeadlineExceeded ∧
    flexlimit.wrapContextError (some (.wrapped "query" .contextCanceled)) =
      some .errContextCanceled ∧
    flexlimit.wrapContextError (some (.plain "boom")) = some (.plain "boom") :=
  ⟨(c4_wrap_context_error .contextDeadlineExceeded).2.2.1 (by decide) (by decide),
   (c4_wrap_context_error (.wrapped "query" .contextCanceled)).2.1 (by decide),
   (c4_wrap_context_error (.plain "boom")).2.2.2 (by decide) (by decide)⟩


/-- C2: RequestContext.Key returns the prefixed field for the strategies
"ip", "user", "endpoint", "session" when the field is non-empty, the
constant "global" for strategy "global" (for every rc), strategy:value
for a custom-map hit on any other strategy name, and "" in every other
case. -/
theorem c2_request_context_key (rc : flexlimit.RequestContext) (s : String) :
    (s = "ip" → rc.IP ≠ "" → rc.Key s = "ip:" ++ rc.IP) ∧
    (s = "user" → rc.UserID ≠ "" → rc.Key s = "user:" ++ rc.UserID) ∧
    (s = "endpoint" → rc.Endpoint ≠ "" → rc.Key s = "endpoint:" ++ rc.Endpoint) ∧
    (s = "session" → rc.SessionID ≠ "" → rc.Key s = "session:" ++ rc.SessionID) ∧
    (s = "global" → rc.Key s = "global") ∧
    (s ≠ "ip" → s ≠ "user" → s ≠ "endpoint" → s ≠ "session" → s ≠ "global" →
      ∀ v, rc.Custom.lookup s = some v → rc.Key s = s ++ ":" ++ v) ∧
    ((s = "ip" ∧ rc.IP = "") ∨ (s = "user" ∧ rc.UserID = "") ∨
      (s = "endpoint" ∧ rc.Endpoint = "") ∨ (s = "session" ∧ rc.SessionID = "") ∨
      (s ≠ "ip" ∧ s ≠ "user" ∧ s ≠ "endpoint" ∧ s ≠ "session" ∧ s ≠ "global" ∧
        rc.Custom.lookup s = none) →
      rc.Key s = "") := by
  refine ⟨?_, ?_, ?_, ?_, ?_, ?_, ?_⟩
  · intro hs hf
    subst hs
    simp [flexlimit.RequestContext.Key, hf]
  · intro hs hf
    subst hs
    simp [flexlimit.RequestContext.Key, hf]
  · intro hs hf
    subst hs
    simp [flexlimit.RequestContext.Key, hf]
  · intro hs hf
    subst hs
    simp [flexlimit.RequestContext.Key, hf]
  · intro hs
    subst hs
    simp [flexlimit.RequestContext.Key]
  · intro h1 h2 h3 h4 h5 v hv
    simp [flexlimit.RequestContext.Key, h1, h2, h3, h4, h5, hv]
  · rintro (⟨hs, hf⟩ | ⟨hs, hf⟩ | ⟨hs, hf⟩ | ⟨hs, hf⟩ | ⟨h1, h2, h3, h4, h5, hv⟩)
    · subst hs; simp [flexlimit.RequestContext.Key, hf]
    · subst hs; simp [flexlimit.RequestContext.Key, hf]
    · subst hs; simp [flexlimit.RequestContext.Key, hf]
    · subst hs; simp [flexlimit.RequestContext.Key, hf]
    · simp [flexlimit.RequestContext.Key, h1, h2, h3, h4, h5, hv]

/-- C2 witness: the key derivation evaluated on concrete contexts, one
instance per kind of case. -/
theorem c2_witness :
    flexlimit.RequestContext.Key
      ⟨"1.2.3.4", "u1", "/api", "s9", [("tenant", "acme")]⟩ "ip" = "ip:1.2.3.4" ∧
    flexlimit.RequestContext.Key ⟨"", "", "", "", []⟩ "global" = "global" ∧
    flexlimit.RequestContext.Key
      ⟨"", "", "", "", [("tenant", "acme")]⟩ "tenant" = "tenant:acme" ∧
    flexlimit.RequestContext.Key ⟨"", "", "", "", []⟩ "ip" = "" ∧
    flexlimit.RequestContext.Key ⟨"", "", "", "", []⟩ "nope" = "" :=
  ⟨(c2_request_context_key ⟨"1.2.3.4", "u1", "/api", "s9", [("tenant", "acme")]⟩
      "ip").1 rfl (by decide),
   (c2_request_context_key ⟨"", "", "", "", []⟩ "global").2.2.2.2.1 rfl,
   (c2_request_context_key ⟨"", "", "", "", [("tenant", "acme")]⟩
      "tenant").2.2.2.2.2.1 (by decide) (by decide) (by decide) (by decide)
      (by decide) "acme" (by decide),
   (c2_request_context_key ⟨"", "", "", "", []⟩ "ip").2.2.2.2.2.2
      (Or.inl ⟨rfl, rfl⟩),
   (c2_request_context_key ⟨"", "", "", "", []⟩ "nope").2.2.2.2.2.2
      (Or.inr (Or.inr (Or.inr (Or.inr
        ⟨by decide, by decide, by decide, by decide, by decide, by decide⟩))))⟩

/-- C6: both AlgorithmType.Validate implementations (types.go and the
algorithm package) return nil exactly on the four algorithm names
token_bucket, fixed_window, sliding_window, leaky_bucket, and on every
other value return a configuration error for the field "algorithm". -/
theorem c6_algorithm_type_validate (a : String) :
    (flexlimit.AlgorithmType.Validate a = none ↔
      a = "token_bucket" ∨ a = "fixed_window" ∨
      a = "sliding_window" ∨ a = "leaky_bucket") ∧
    (algorithm.AlgorithmType.Validate a = none ↔
      a = "token_bucket" ∨ a = "fixed_window" ∨
      a = "sliding_window" ∨ a = "leaky_bucket") ∧
    (¬(a = "token_bucket" ∨ a = "fixed_window" ∨
        a = "sliding_window" ∨ a = "leaky_bucket") →
      flexlimit.AlgorithmType.Validate a =
        some (.invalidConfigError "algorithm" (.str a)
          "must be one of: token_bucket, sliding_window, fixed_window, leaky_bucket") ∧
      algorithm.AlgorithmType.Validate a =
        some (.configError "algorithm" (.str a)
          "must be one of: token_bucket, fixed_window, sliding_window, leaky_bucket")) := by
  unfold flexlimit.AlgorithmType.Validate algorithm.AlgorithmType.Validate
  unfold flexlimit.TokenBucket flexlimit.SlidingWindow flexlimit.FixedWindow
    flexlimit.LeakyBucket algorithm.TokenBucket algorithm.FixedWindow
    algorithm.SlidingWindow algorithm.LeakyBucket
  refine ⟨?_, ?_, fun h => ?_⟩
  · split_ifs with h <;> simp <;> tauto
  · split_ifs with h <;> simp <;> tauto
  · constructor <;> rw [if_neg (by tauto)]

/-- C6 witness: both validators evaluated at a known name and at an
unknown name. -/
theorem c6_witness :
    flexlimit.AlgorithmType.Validate "token_bucket" = none ∧
    flexlimit.AlgorithmType.Validate "bogus" =
      some (.invalidConfigError "algorithm" (.str "bogus")
        "must be one of: token_bucket, sliding_window, fixed_window, leaky_bucket") ∧
    algorithm.AlgorithmType.Validate "bogus" =
      some (.configError "algorithm" (.str "bogus")
        "must be one of: token_bucket, fixed_window, sliding_window, leaky_bucket") :=
  ⟨(c6_algorithm_type_validate "token_bucket").1.mpr (Or.inl rfl),
   ((c6_algorithm_type_validate "bogus").2.2 (by decide)).1,
   ((c6_algorithm_type_validate "bogus").2.2 (by decide)).2⟩

/-- C7: FallbackStrategy.Validate returns nil exactly on allow_all,
deny_all, local_memory, and on every other value returns an
InvalidConfigError for the field "fallback_strategy". -/
theorem c7_fallback_strategy_validate (f : String) :
    (flexlimit.FallbackStrategy.Validate f = none ↔
      f = "allow_all" ∨ f = "deny_all" ∨ f = "local_memory") ∧
    (¬(f = "allow_all" ∨ f = "deny_all" ∨ f = "local_memory") →
      flexlimit.FallbackStrategy.Validate f =
        some (.invalidConfigError "fallback_strategy" (.str f)
          "must be one of: allow_all, deny_all, local_memory")) := by
  unfold flexlimit.FallbackStrategy.Validate
  unfold flexlimit.AllowAll flexlimit.DenyAll flexlimit.LocalMemory
  refine ⟨?_, fun h => ?_⟩
  · split_ifs with h <;> simp <;> tauto
  · rw [if_neg (by tauto)]

/-- C7 witness: the fallback-strategy validator at a known strategy and
at an unknown one. -/
theorem c7_witness :
    flexlimit.FallbackStrategy.Validate "local_memory" = none ∧
    flexlimit.FallbackStrategy.Validate "drop_all" =
      some (.invalidConfigError "fallback_strategy" (.str "drop_all")
        "must be one of: allow_all, deny_all, local_memory") :=
  ⟨(c7_fallback_strategy_validate "local_memory").1.mpr (Or.inr (Or.inr rfl)),
   (c7_fallback_strategy_validate "drop_all").2 (by decide)⟩

/-- C3 counterexample: Config.Validate accepts a config whose Algorithm
field is not one of the four known algorithm names — the claimed
"only if the configured algorithm name is valid" direction fails,
because Config.Validate never inspects the Algorithm field. -/
theorem c3_counterexample :
    algorithm.Config.Validate ⟨1, 1, 0, "bogus"⟩ = none ∧
    ¬("bogus" = "token_bucket" ∨ "bogus" = "fixed_window" ∨
      "bogus" = "sliding_window" ∨ "bogus" = "leaky_bucket") := by
  constructor
  · rfl
  · decide

/-- C3 (amended): Config.Validate accepts a Config (returns nil) if and
only if Rate > 0, Window > 0 and BurstSize ≥ 0; each violation yields a
ConfigError identifying the offending field (rate, then window, then
burst_size, checked in that order). The algorithm name is not checked
by Config.Validate; it is validated separately by
AlgorithmType.Validate. -/
theorem c3_config_validate (c : algorithm.Config) :
    (algorithm.Config.Validate c = none ↔
      0 < c.Rate ∧ 0 < c.Window ∧ 0 ≤ c.BurstSize) ∧
    (c.Rate ≤ 0 →
      algorithm.Config.Validate c =
        some (.configError "rate" (.int c.Rate) "must be positive")) ∧
    (0 < c.Rate → c.Window ≤ 0 →
      algorithm.Config.Validate c =
        some (.configError "window" (.int c.Window) "must be positive")) ∧
    (0 < c.Rate → 0 < c.Window → c.BurstSize < 0 →
      algorithm.Config.Validate c =
        some (.configError "burst_size" (.int c.BurstSize) "cannot be negative")) := by
  refine ⟨?_, fun h1 => ?_, fun h1 h2 => ?_, fun h1 h2 h3 => ?_⟩
  · unfold algorithm.Config.Validate
    split_ifs with h1 h2 h3 <;> simp <;> omega
  · unfold algorithm.Config.Validate
    rw [if_pos h1]
  · unfold algorithm.Config.Validate
    rw [if_neg (by omega), if_pos h2]
  · unfold algorithm.Config.Validate
    rw [if_neg (by omega), if_neg (by omega), if_pos h3]

/-- C3 witness: the config validator at a valid config and at each kind
of invalid config. -/
theorem c3_witness :
    algorithm.Config.Validate ⟨10, 1000000000, 5, "token_bucket"⟩ = none ∧
    algorithm.Config.Validate ⟨0, 1000000000, 0, "token_bucket"⟩ =
      some (.configError "rate" (.int 0) "must be positive") ∧
    algorithm.Config.Validate ⟨10, 0, 0, "token_bucket"⟩ =
      some (.configError "window" (.int 0) "must be positive") ∧
    algorithm.Config.Validate ⟨10, 1000000000, -1, "token_bucket"⟩ =
      some (.configError "burst_size" (.int (-1)) "cannot be negative") :=
  ⟨(c3_config_validate ⟨10, 1000000000, 5, "token_bucket"⟩).1.mpr
      (by refine ⟨?_, ?_, ?_⟩ <;> decide),
   (c3_config_validate ⟨0, 1000000000, 0, "token_bucket"⟩).2.1 (by decide),
   (c3_config_validate ⟨10, 0, 0, "token_bucket"⟩).2.2.1 (by decide) (by decide),
   (c3_config_validate ⟨10, 1000000000, -1, "token_bucket"⟩).2.2.2
      (by decide) (by decide) (by decide)⟩

/-- C5: when the Token Bucket engine rejects (refilled tokens < cost),
it returns retryAfter = (cost − tokens) × window/rate computed from the
refilled token count, and persists tokens at the refilled (but not
decremented) value with lastRefill = now — the lazy refill commits to
storage even on a rejection. -/
theorem c5_token_bucket_reject_commits_refill (rate window burstSize : ℚ)
    (st : algorithm.TBState) (now cost : ℚ)
    (h : algorithm.tbRefilled rate window burstSize st now < cost) :
    algorithm.tokenBucketAllow rate window burstSize st now cost =
      (false, ⟨algorithm.tbRefilled rate window burstSize st now, now⟩,
        (cost - algorithm.tbRefilled rate window burstSize st now) *
          (window / rate)) := by
  unfold algorithm.tokenBucketAllow
  rw [if_neg (not_le.mpr h)]

/-- C5 witness: rate 1, window 1, burst 1, empty bucket refilled for
half a window, cost 1 — rejected, with the half token and the new
lastRefill persisted and retryAfter one half window. -/
theorem c5_witness :
    algorithm.tbRefilled 1 1 1 ⟨0, 0⟩ (1 / 2) < 1 ∧
    algorithm.tokenBucketAllow 1 1 1 ⟨0, 0⟩ (1 / 2) 1 =
      (false, ⟨1 / 2, 1 / 2⟩, 1 / 2) := by
  have h : algorithm.tbRefilled 1 1 1 ⟨0, 0⟩ (1 / 2) < 1 := by
    norm_num [algorithm.tbRefilled, algorithm.tbBurst]
  refine ⟨h, ?_⟩
  rw [c5_token_bucket_reject_commits_refill 1 1 1 ⟨0, 0⟩ (1 / 2) 1 h]
  norm_num [algorithm.tbRefilled, algorithm.tbBurst]

/-- C1 counterexample: a denied Token Bucket call does change the
persisted state for the key — from ⟨0 tokens, lastRefill 0⟩ to the
refilled ⟨1/2 tokens, lastRefill 1/2⟩ — so "denials leave persisted
state unchanged except Sliding Window pruning" fails as stated. -/
theorem c1_counterexample :
    (algorithm.tokenBucketAllow 1 1 1 ⟨0, 0⟩ (1 / 2) 1).1 = false ∧
    (algorithm.tokenBucketAllow 1 1 1 ⟨0, 0⟩ (1 / 2) 1).2.1 ≠ (⟨0, 0⟩ : algorithm.TBState) := by
  have h : algorithm.tokenBucketAllow 1 1 1 ⟨0, 0⟩ (1 / 2) 1 =
      (false, ⟨1 / 2, 1 / 2⟩, 1 / 2) := by
    norm_num [algorithm.tokenBucketAllow, algorithm.tbRefilled, algorithm.tbBurst]
  rw [h]
  refine ⟨rfl, ?_⟩
  simp [algorithm.TBState.mk.injEq]

/-- C1 (amended): a denial leaves the persisted state for the key
unchanged for the Fixed Window and Leaky Bucket engines; a Sliding
Window denial only removes expired timestamp entries (the persisted
list is exactly the old list with entries older than now − window
pruned, a side effect of any read); and a Token Bucket denial commits
only the lazy refill — tokens at the refilled, not decremented, value
and lastRefill = now — consuming nothing. -/
theorem c1_denial_frame_effect :
    (∀ (rate : ℤ) (window : ℚ) (st : algorithm.FWState) (now : ℚ) (cost : ℤ),
      (algorithm.fixedWindowAllow rate window st now cost).1 = false →
      (algorithm.fixedWindowAllow rate window st now cost).2.1 = st) ∧
    (∀ (rate capacity : ℚ) (st : algorithm.LBState) (now cost : ℚ),
      (algorithm.leakyBucketAllow rate capacity st now cost).1 = false →
      (algorithm.leakyBucketAllow rate capacity st now cost).2.1 = st) ∧
    (∀ (rate : ℤ) (window : ℚ) (ts : List ℚ) (now : ℚ) (cost : ℕ),
      (algorithm.slidingWindowAllow rate window ts now cost).1 = false →
      (algorithm.slidingWindowAllow rate window ts now cost).2.1 =
        ts.filter (fun t => now - window ≤ t)) ∧
    (∀ (rate window burstSize : ℚ) (st : algorithm.TBState) (now cost : ℚ),
      (algorithm.tokenBucketAllow rate window burstSize st now cost).1 = false →
      (algorithm.tokenBucketAllow rate window burstSize st now cost).2.1 =
        ⟨algorithm.tbRefilled rate window burstSize st now, now⟩) := by
  refine ⟨fun rate window st now cost h => ?_,
    fun rate capacity st now cost h => ?_,
    fun rate window ts now cost h => ?_,
    fun rate window burstSize st now cost h => ?_⟩
  · simp only [algorithm.fixedWindowAllow] at h ⊢
    split <;> split <;> simp_all
  · simp only [algorithm.leakyBucketAllow] at h ⊢
    split <;> simp_all
  · simp only [algorithm.slidingWindowAllow] at h ⊢
    split <;> simp_all
  · simp only [algorithm.tokenBucketAllow] at h ⊢
    split <;> simp_all

/-- C1 witness: one concrete denied call per engine, each with the
persisted state pinned by the frame theorem. -/
theorem c1_witness :
    (algorithm.fixedWindowAllow 1 1 ⟨1, 0⟩ (1 / 2) 1).1 = false ∧
    (algorithm.fixedWindowAllow 1 1 ⟨1, 0⟩ (1 / 2) 1).2.1 = ⟨1, 0⟩ ∧
    (algorithm.leakyBucketAllow 1 1 ⟨1, 0⟩ 0 1).1 = false ∧
    (algorithm.leakyBucketAllow 1 1 ⟨1, 0⟩ 0 1).2.1 = ⟨1, 0⟩ ∧
    (algorithm.slidingWindowAllow 1 1 [0] (1 / 2) 1).1 = false ∧
    (algorithm.slidingWindowAllow 1 1 [0] (1 / 2) 1).2.1 =
      List.filter (fun t => decide ((1 / 2 : ℚ) - 1 ≤ t)) [0] ∧
    (algorithm.tokenBucketAllow 2 1 2 ⟨0, 0⟩ (1 / 2) 2).1 = false ∧
    (algorithm.tokenBucketAllow 2 1 2 ⟨0, 0⟩ (1 / 2) 2).2.1 =
      ⟨algorithm.tbRefilled 2 1 2 ⟨0, 0⟩ (1 / 2), 1 / 2⟩ := by
  have hfw : (algorithm.fixedWindowAllow 1 1 ⟨1, 0⟩ (1 / 2) 1).1 = false := by
    norm_num [algorithm.fixedWindowAllow]
  have hlb : (algorithm.leakyBucketAllow 1 1 ⟨1, 0⟩ 0 1).1 = false := by
    norm_num [algorithm.leakyBucketAllow]
  have hsw : (algorithm.slidingWindowAllow 1 1 [0] (1 / 2) 1).1 = false := by
    norm_num [algorithm.slidingWindowAllow]
  have htb : (algorithm.tokenBucketAllow 2 1 2 ⟨0, 0⟩ (1 / 2) 2).1 = false := by
    norm_num [algorithm.tokenBucketAllow, algorithm.tbRefilled, algorithm.tbBurst]
  exact ⟨hfw, c1_denial_frame_effect.1 1 1 ⟨1, 0⟩ (1 / 2) 1 hfw,
    hlb, c1_denial_frame_effect.2.1 1 1 ⟨1, 0⟩ 0 1 hlb,
    hsw, c1_denial_frame_effect.2.2.1 1 1 [0] (1 / 2) 1 hsw,
    htb, c1_denial_frame_effect.2.2.2 2 1 2 ⟨0, 0⟩ (1 / 2) 2 htb⟩

/-- C10: the mock clock is deterministic under sequential use — after
Set(t), Now() returns t; after Advance(d), Now() returns the previous
time plus d; after SetAutoAdvance(s), a Now() call returns the
pre-advance time and moves the clock forward by s, so k consecutive
Now() calls from time t0 return exactly t0, t0+s, …, t0+(k−1)·s; and
Since(u) equals Now() minus u. -/
theorem c10_mock_clock (m : clock.Mock) (t d s t0 u : ℤ) (k : ℕ) :
    ((m.Set t).Now).1 = t ∧
    ((m.Advance d).Now).1 = m.now + d ∧
    ((m.SetAutoAdvance s).Now).1 = m.now ∧
    ((m.SetAutoAdvance s).Now).2.now = m.now + s ∧
    clock.Mock.nowTrace ⟨t0, true, s⟩ k =
      (List.range k).map (fun (i : ℕ) => t0 + (i : ℤ) * s) ∧
    (m.Since u).1 = (m.Now).1 - u := by
  have trace : ∀ (n : ℕ) (a : ℤ), clock.Mock.nowTrace ⟨a, true, s⟩ n =
      (List.range n).map (fun (i : ℕ) => a + (i : ℤ) * s) := by
    intro n
    induction n with
    | zero => intro a; rfl
    | succ n ih =>
        intro a
        have step : clock.Mock.nowTrace ⟨a, true, s⟩ (n + 1) =
            a :: clock.Mock.nowTrace ⟨a + s, true, s⟩ n := rfl
        rw [step, ih (a + s), List.range_succ_eq_map, List.map_cons, List.map_map]
        refine List.cons_eq_cons.mpr ⟨by simp, List.map_congr_left fun i _ => ?_⟩
        simp only [Function.comp_apply]
        push_cast
        ring
  exact ⟨rfl, rfl, rfl, rfl, trace k t0, rfl⟩
